import Mathlib

/-!
Verification development for the jac-splice-orc plugin
(`jac_splice_orc/plugin/splice_plugin.py`).

The Python source is shallowly embedded: strings are lists of characters,
the Kubernetes control plane is modelled by explicit cluster state together
with the per-call responses the client library would deliver, the `.env`
configuration store is a list of text lines, and exceptions are modelled
with `Except` / `Option`.
-/

set_option maxHeartbeats 1000000

namespace SpliceOrc

/-- Strings are modelled as lists of characters so that the parsing done by
`configure_pod_manager_url` can be reasoned about character by character. -/
abbrev Str := List Char

/-- Python's default whitespace set, as used by `str.strip()` with no argument. -/
def isPySpace (c : Char) : Bool :=
  decide (c = ' ' ∨ c = '\t' ∨ c = '\n' ∨ c = '\r' ∨ c = '\x0b' ∨ c = '\x0c')

/-- Drop characters satisfying `p` from the front of a string (Python `lstrip`). -/
def lstripBy (p : Char → Bool) (s : Str) : Str := s.dropWhile p

/-- Drop characters satisfying `p` from the end of a string (Python `rstrip`). -/
def rstripBy (p : Char → Bool) (s : Str) : Str := (s.reverse.dropWhile p).reverse

/-- Python `str.strip()` with no argument: strip whitespace from both ends. -/
def pyStrip (s : Str) : Str := rstripBy isPySpace (lstripBy isPySpace s)

/-- Python `str.strip('"')`: strip double quotes from both ends, as applied to the
value part of each `.env` line. -/
def stripQuotes (s : Str) : Str :=
  rstripBy (fun c => decide (c = '"')) (lstripBy (fun c => decide (c = '"')) s)

/-- Python `str.split("=", 1)` restricted to the case the source uses: `none` when the
line has no `=` (where Python's tuple unpacking would raise `ValueError`), otherwise
the part before the first `=` and everything after it. -/
def splitOnceEq : Str → Option (Str × Str)
  | [] => none
  | c :: cs =>
    if c = '=' then some ([], cs)
    else
      match splitOnceEq cs with
      | some (k, v) => some (c :: k, v)
      | none => none

/-- Outcome of processing one `.env` line inside the read loop of
`configure_pod_manager_url`. -/
inductive EnvLine
  | blank
  | malformed
  | entry (key value : Str)
deriving DecidableEq

/-- One iteration of the read loop of `configure_pod_manager_url`: skip the line when
`line.strip()` is falsy, otherwise split on the first `=` (`malformed` marks the
`ValueError` of the unpacking) and strip quotes from the value. -/
def parseEnvLine (line : Str) : EnvLine :=
  let s := pyStrip line
  if s = [] then .blank
  else
    match splitOnceEq s with
    | none => .malformed
    | some (k, v) => .entry k (stripQuotes v)

/-- Python dict assignment `d[k] = v` on an insertion-ordered association list: an
existing key keeps its position and gets the new value, a new key is appended. -/
def dictInsert (m : List (Str × Str)) (k v : Str) : List (Str × Str) :=
  if m.any (fun p => decide (p.1 = k)) then
    m.map (fun p => if p.1 = k then (k, v) else p)
  else m ++ [(k, v)]

/-- The read loop of `configure_pod_manager_url` over the remaining lines, carrying the
`env_vars` dict built so far; `none` models the `ValueError` raised on a non-blank
line without `=`. -/
def readEnvAux (m : List (Str × Str)) : List Str → Option (List (Str × Str))
  | [] => some m
  | line :: rest =>
    match parseEnvLine line with
    | .blank => readEnvAux m rest
    | .malformed => none
    | .entry k v => readEnvAux (dictInsert m k v) rest

/-- Read a whole `.env` file (given as its list of lines) into the `env_vars` dict. -/
def readEnvLines (lines : List Str) : Option (List (Str × Str)) := readEnvAux [] lines

/-- Lookup in the `env_vars` association list (first matching key wins; the lists the
source builds have unique keys). -/
def lookupStr (m : List (Str × Str)) (k : Str) : Option Str :=
  match m with
  | [] => none
  | q :: rest => if q.1 = k then some q.2 else lookupStr rest k

/-- The line `f'⟨key⟩="⟨value⟩"'` written back for one entry of `env_vars`
(the trailing newline is absorbed by the list-of-lines file model). -/
def writeEnvLine (kv : Str × Str) : Str := kv.1 ++ ( '=') :: ( '"') :: (kv.2 ++ [ '"'])

/-- The full rewrite of the `.env` file performed by `configure_pod_manager_url`. -/
def writeEnvLines (m : List (Str × Str)) : List Str := m.map writeEnvLine

/-- Whether a string does not start with Python whitespace (vacuously true when empty). -/
def headNotSpace : Str → Bool
  | [] => true
  | c :: _ => !(isPySpace c)

/-- The shape invariant of every key-value pair produced by the `.env` read loop:
the key contains no `=` and does not start with whitespace, and the value is a
fixed point of quote-stripping.  These facts make one written line parse back to
exactly the same pair. -/
def EnvNormal (kv : Str × Str) : Prop :=
  ( '=') ∉ kv.1 ∧ headNotSpace kv.1 = true ∧ stripQuotes kv.2 = kv.2

/-- One ingress entry of the pod-manager service status, with its optional
`ip` and `hostname` attributes. -/
structure LBIngress where
  ip : Option Str
  hostname : Option Str
deriving DecidableEq

/-- Response of `read_namespaced_service` as used by `get_loadbalancer_url`: either
the service object with `status.load_balancer.ingress` (which may be Python `None`
or a list), or an `ApiException` with a status code. -/
inductive ServiceRead
  | ok (ingress : Option (List LBIngress))
  | apiError (status : Nat)
deriving DecidableEq

/-- Python truthiness of an optional string attribute: `None` and the empty string
are falsy. -/
def truthyOpt : Option Str → Bool
  | none => false
  | some s => !s.isEmpty

/-- Embeds `SpliceOrcPlugin.get_loadbalancer_url`: inspect `ingress[0]`, return its
`ip` when truthy, else its `hostname` when truthy, else `None`; an `ApiException`
while reading the service is caught, logged and turned into `None`. -/
def get_loadbalancer_url (svc : ServiceRead) : Option Str :=
  match svc with
  | .apiError _ => none
  | .ok ingress =>
    match ingress with
    | none => none
    | some [] => none
    | some (first :: _) =>
      if truthyOpt first.ip then first.ip
      else if truthyOpt first.hostname then first.hostname
      else none

/-- The key `POD_MANAGER_URL` persisted into the `.env` store. -/
def podManagerUrlKey : Str := ( "POD_MANAGER_URL").toList

/-- The value `http://⟨address⟩:8000` persisted for a resolved address. -/
def managerUrlValue (addr : Str) : Str :=
  ( "http://").toList ++ addr ++ ( ":8000").toList

/-- Embeds `SpliceOrcPlugin.configure_pod_manager_url`.  The `.env` file is
`none` when absent, otherwise its list of lines.  When no URL is resolved the
function only logs and the file is untouched; otherwise the existing file is read
into `env_vars`, `POD_MANAGER_URL` is updated, and the file is rewritten in full.
The outer `none` models the `ValueError` escaping before any write happens. -/
def configure_pod_manager_url (svc : ServiceRead) (fileLines : Option (List Str)) :
    Option (Option (List Str)) :=
  match get_loadbalancer_url svc with
  | none => some fileLines
  | some addr =>
    let existing : Option (List (Str × Str)) :=
      match fileLines with
      | none => some []
      | some lines => readEnvLines lines
    match existing with
    | none => none
    | some m => some (some (writeEnvLines (dictInsert m podManagerUrlKey (managerUrlValue addr))))

/-- Cluster-side state touched by the bootstrap: which namespaces exist, and which
service accounts, roles and role bindings (each keyed by namespace and name). -/
structure ClusterState where
  namespaces : List Str
  serviceAccounts : List (Str × Str)
  roles : List (Str × Str)
  roleBindings : List (Str × Str)
deriving DecidableEq

/-- The fixed namespace name `jac-splice-orc` used by the plugin. -/
def namespaceName : Str := ( "jac-splice-orc").toList

/-- The fixed service-account name `smartimportsa`. -/
def serviceAccountName : Str := ( "smartimportsa").toList

/-- The fixed role name `smartimport-role`. -/
def roleName : Str := ( "smartimport-role").toList

/-- The fixed role-binding name `smartimport-rolebinding`. -/
def roleBindingName : Str := ( "smartimport-rolebinding").toList

/-- Response of a `read_namespaced_*` call: success, or an `ApiException` carrying a
status code (404 being the "not found" condition the source checks for). -/
inductive ApiRead
  | found
  | apiError (status : Nat)
deriving DecidableEq

/-- Outcome of a `create_namespaced_*` call: success, or an exception carrying a
status code.  The source wraps no try/except around these calls, so a non-ok
outcome propagates out of the enclosing method. -/
inductive CreateResult
  | ok
  | apiError (status : Nat)
deriving DecidableEq

/-- Embeds `SpliceOrcPlugin.create_namespace`: list the namespaces, and create the
namespace only when no listed namespace already carries the name. -/
def create_namespace (name : Str) (s : ClusterState) : ClusterState :=
  if s.namespaces.any (fun n => decide (n = name)) then s
  else { s with namespaces := s.namespaces ++ [name] }

/-- The service-account arm of `SpliceOrcPlugin.create_service_account`: a successful
read leaves the cluster untouched; an `ApiException` with status 404 triggers
`create_namespaced_service_account`, whose own failure is uncaught and so re-raised;
any other read status is logged and re-raised. -/
def serviceAccountStep (r : ApiRead) (cr : CreateResult) (ns : Str) (s : ClusterState) :
    Except Nat ClusterState :=
  match r with
  | .found => .ok s
  | .apiError st =>
    if st = 404 then
      match cr with
      | .ok => .ok { s with serviceAccounts := s.serviceAccounts ++ [(ns, serviceAccountName)] }
      | .apiError ce => .error ce
    else .error st

/-- The role arm of `SpliceOrcPlugin.create_role_and_binding`: same read-or-create
pattern for the role object, with an uncaught `create_namespaced_role` failure
re-raised. -/
def roleStep (r : ApiRead) (cr : CreateResult) (ns : Str) (s : ClusterState) :
    Except Nat ClusterState :=
  match r with
  | .found => .ok s
  | .apiError st =>
    if st = 404 then
      match cr with
      | .ok => .ok { s with roles := s.roles ++ [(ns, roleName)] }
      | .apiError ce => .error ce
    else .error st

/-- The role-binding arm of `SpliceOrcPlugin.create_role_and_binding`, with an
uncaught `create_namespaced_role_binding` failure re-raised. -/
def roleBindingStep (r : ApiRead) (cr : CreateResult) (ns : Str) (s : ClusterState) :
    Except Nat ClusterState :=
  match r with
  | .found => .ok s
  | .apiError st =>
    if st = 404 then
      match cr with
      | .ok => .ok { s with roleBindings := s.roleBindings ++ [(ns, roleBindingName)] }
      | .apiError ce => .error ce
    else .error st

/-- Embeds `SpliceOrcPlugin.create_role_and_binding`, with the responses of the two
reads and the outcomes of the two creates supplied by the control plane as inputs. -/
def create_role_and_binding (rRole : ApiRead) (cRole : CreateResult) (rBinding : ApiRead)
    (cBinding : CreateResult) (ns : Str) (s : ClusterState) : Except Nat ClusterState :=
  match roleStep rRole cRole ns s with
  | .error e => .error e
  | .ok s1 => roleBindingStep rBinding cBinding ns s1

/-- Embeds `SpliceOrcPlugin.create_service_account` (which ends by calling
`create_role_and_binding`), with the three read responses and three create outcomes
supplied as inputs. -/
def create_service_account (rSA : ApiRead) (cSA : CreateResult) (rRole : ApiRead)
    (cRole : CreateResult) (rBinding : ApiRead) (cBinding : CreateResult)
    (ns : Str) (s : ClusterState) : Except Nat ClusterState :=
  match serviceAccountStep rSA cSA ns s with
  | .error e => .error e
  | .ok s1 => create_role_and_binding rRole cRole rBinding cBinding ns s1

/-- A fault-free read of the service account: `found` exactly when the cluster has it,
`ApiException` 404 otherwise. -/
def readServiceAccount (s : ClusterState) (ns : Str) : ApiRead :=
  if s.serviceAccounts.any (fun p => decide (p = (ns, serviceAccountName))) then .found
  else .apiError 404

/-- A fault-free read of the role. -/
def readRole (s : ClusterState) (ns : Str) : ApiRead :=
  if s.roles.any (fun p => decide (p = (ns, roleName))) then .found
  else .apiError 404

/-- A fault-free read of the role binding. -/
def readRoleBinding (s : ClusterState) (ns : Str) : ApiRead :=
  if s.roleBindings.any (fun p => decide (p = (ns, roleBindingName))) then .found
  else .apiError 404

/-- `create_service_account` executed against a fault-free control plane: each read
is answered from the cluster state current at that point of the sequence, and every
create succeeds. -/
def create_service_account_run (ns : Str) (s : ClusterState) : Except Nat ClusterState :=
  match serviceAccountStep (readServiceAccount s ns) CreateResult.ok ns s with
  | .error e => .error e
  | .ok s1 =>
    match roleStep (readRole s1 ns) CreateResult.ok ns s1 with
    | .error e => .error e
    | .ok s2 => roleBindingStep (readRoleBinding s2 ns) CreateResult.ok ns s2

/-- The ClusterIdentity of the spec: the four fixed names the bootstrap ensures. -/
structure ClusterIdentity where
  nsName : Str
  saName : Str
  rName : Str
  rbName : Str
deriving DecidableEq

/-- The one identity this deployment ever uses. -/
def theIdentity : ClusterIdentity :=
  { nsName := namespaceName, saName := serviceAccountName,
    rName := roleName, rbName := roleBindingName }

/-- Embeds the bootstrap prefix of `SpliceOrcPlugin.__init__` (the Cluster
Bootstrapper's `ensure_ready` contract): ensure the namespace, then the service
account, role and role binding, returning the fixed identity. -/
def ensure_ready (s : ClusterState) : Except Nat (ClusterIdentity × ClusterState) :=
  match create_service_account_run namespaceName (create_namespace namespaceName s) with
  | .error e => .error e
  | .ok s2 => .ok (theIdentity, s2)

/-- Add an element to a list exactly when no member equals it (the read-or-create
pattern seen from the state side). -/
def ensureIn {α : Type} [DecidableEq α] (l : List α) (x : α) : List α :=
  if l.any (fun y => decide (y = x)) then l else l ++ [x]

/-- Per-module configuration entry from `settings.module_config`: the dict is
modelled by its `load_type` value plus the remaining key-value pairs. -/
structure ModuleConfig where
  load_type : Str
  params : List (Str × Str)
deriving DecidableEq

/-- A module-like object as returned to the host runtime: either an ordinary module
produced by a local importer, or the remote module proxy holding the module name
and the manager endpoint it was constructed with. -/
inductive ModuleLike
  | localModule (name : Str)
  | proxy (moduleName : Str) (endpoint : Option Str)
deriving DecidableEq

/-- The constructor arguments of `ImportPathSpec`, in source order. -/
structure ImportPathSpec where
  target : Str
  base_path : Str
  absorb : Bool
  cachable : Bool
  mdl_alias : Option Str
  override_name : Option Str
  lng : Option Str
  items : Option (List (Str × Option Str))
deriving DecidableEq

/-- The result object handed back by `run_import`: the whole module and the
requested item bindings. -/
structure ImportResult where
  ret_mod : ModuleLike
  ret_items : List ModuleLike
deriving DecidableEq

/-- The arguments of one `jac_import` call, in source order. -/
structure ImportRequest where
  target : Str
  base_path : Str
  absorb : Bool
  cachable : Bool
  mdl_alias : Option Str
  override_name : Option Str
  lng : Option Str
  items : Option (List (Str × Option Str))
  reload_module : Option Bool
deriving DecidableEq

/-- Lookup of `settings.module_config[target]` (a dict, so keys are unique). -/
def lookupConfig (cfg : List (Str × ModuleConfig)) (target : Str) : Option ModuleConfig :=
  match cfg with
  | [] => none
  | (k, c) :: rest => if k = target then some c else lookupConfig rest target

/-- Error kinds an import could surface with.  The source of `jac_import` raises
none of them itself; the type exists so that "raises a configuration error" is a
statable outcome. -/
inductive ImportError
  | configurationError
deriving DecidableEq

/-- The `load_type` value selecting remote execution. -/
def remoteLoadType : Str := ( "remote").toList

/-- The `lng` value selecting the Python importer. -/
def pyLng : Str := ( "py").toList

/-- Python truthiness of the optional `items` dict: `None` and `{}` are falsy. -/
def truthyItems : Option (List (Str × Option Str)) → Bool
  | none => false
  | some l => !l.isEmpty

/-- The `ImportPathSpec(target, base_path, absorb, cachable, mdl_alias,
override_name, lng, items)` built by the local path of `jac_import`. -/
def toSpec (req : ImportRequest) : ImportPathSpec :=
  { target := req.target, base_path := req.base_path, absorb := req.absorb,
    cachable := req.cachable, mdl_alias := req.mdl_alias,
    override_name := req.override_name, lng := req.lng, items := req.items }

/-- The local arm of `jac_import`: build the `ImportPathSpec`, run the Python
importer when `lng == "py"` and the Jac importer (with the reload flag) otherwise,
then shape the result: the whole module when `absorb or not items`, else the tuple
of `ret_items`.  The `JacMachine` program attachment is runtime-internal and has no
bearing on the returned value, so it is not part of the state modelled here. -/
def jac_import_local
    (pyImporter : ImportPathSpec → ImportResult)
    (jacImporter : ImportPathSpec → Option Bool → ImportResult)
    (req : ImportRequest) (cluster : ClusterState) :
    Except ImportError (List ModuleLike) × ClusterState :=
  let spec := toSpec req
  let import_result :=
    if req.lng = some pyLng then pyImporter spec else jacImporter spec req.reload_module
  (Except.ok
      (if req.absorb || !truthyItems req.items then [import_result.ret_mod]
       else import_result.ret_items),
    cluster)

/-- Embeds `SpliceOrcPlugin.jac_import`.  `pod_manager_url` is `os.getenv`'s view of
the persisted endpoint, `get_module_proxy` is the external proxy factory, and the two
importer parameters are the external local importers.  The cluster state is threaded
through unchanged because the source performs no control-plane call on any path. -/
def jac_import
    (module_config : List (Str × ModuleConfig))
    (pod_manager_url : Option Str)
    (get_module_proxy : Str → ModuleConfig → Option Str → ModuleLike)
    (pyImporter : ImportPathSpec → ImportResult)
    (jacImporter : ImportPathSpec → Option Bool → ImportResult)
    (req : ImportRequest) (cluster : ClusterState) :
    Except ImportError (List ModuleLike) × ClusterState :=
  match lookupConfig module_config req.target with
  | some cfg =>
    if cfg.load_type = remoteLoadType then
      (Except.ok [get_module_proxy req.target cfg pod_manager_url], cluster)
    else jac_import_local pyImporter jacImporter req cluster
  | none => jac_import_local pyImporter jacImporter req cluster

/-- Modelled from the spec: `ModuleProxy.get_module_proxy`
(`jac_splice_orc/managers/proxy_manager.py` is not under src/).  Per §4.4 the
factory, given the module identifier, its config and the manager endpoint, obtains
or constructs the proxy handle standing in for the remote module; it returns the
proxy and raises nothing. -/
def get_module_proxy_spec (name : Str) (_cfg : ModuleConfig) (endpoint : Option Str) :
    ModuleLike :=
  .proxy name endpoint

/-- Modelled from the spec: the external local importer (the host runtime's module
loading machinery, out of scope per §1).  Its result carries the whole module as
`ret_mod` and, per the §8 return-shape scenario, the requested named bindings in
request order as `ret_items`. -/
def importerSpecModel (resolve : Str → ModuleLike) (spec : ImportPathSpec) : ImportResult :=
  { ret_mod := resolve spec.target,
    ret_items :=
      match spec.items with
      | none => []
      | some its => its.map (fun kv => resolve kv.1) }

/-- A concrete symbol resolver used by the closed instances below. -/
def exampleResolve (n : Str) : ModuleLike := .localModule n

/-- A concrete Python importer instance. -/
def examplePyImporter (spec : ImportPathSpec) : ImportResult :=
  importerSpecModel exampleResolve spec

/-- A concrete Jac importer instance. -/
def exampleJacImporter (spec : ImportPathSpec) (_reload : Option Bool) : ImportResult :=
  importerSpecModel exampleResolve spec

/-- A concrete import request: `jac_import("pkg.mod", ..., absorb=False,
items={"a": None, "b": "c"})`. -/
def exampleRequest : ImportRequest :=
  { target := ( "pkg.mod").toList, base_path := ( "/tmp").toList, absorb := false,
    cachable := true, mdl_alias := none, override_name := none, lng := none,
    items := some [(( "a").toList, none), (( "b").toList, some (( "c").toList))],
    reload_module := none }

/-- An empty cluster. -/
def exampleCluster : ClusterState :=
  { namespaces := [], serviceAccounts := [], roles := [], roleBindings := [] }

/-- A remote-mode module config. -/
def remoteConfigExample : ModuleConfig := { load_type := remoteLoadType, params := [] }

/-- A module-config table mapping `pkg.mod` to remote mode. -/
def remoteConfigMap : List (Str × ModuleConfig) :=
  [(( "pkg.mod").toList, remoteConfigExample)]

/-- A module-config table mapping `pkg.mod` to local mode. -/
def localConfigMap : List (Str × ModuleConfig) :=
  [(( "pkg.mod").toList, { load_type := ( "local").toList, params := [] })]

/-- Claim C2: invoked against a manager service with no assigned ingress address
(`status.load_balancer.ingress` empty or `None`), endpoint resolution terminates with
the distinguished "unresolved" outcome `none` — the code's realisation of the
recoverable `EndpointUnresolvedError` condition — and `configure_pod_manager_url`
persists no garbage endpoint: the `.env` store is left exactly as it was. -/
theorem C2_unready_endpoint (svc : ServiceRead) (fs : Option (List Str))
    (h : svc = ServiceRead.ok none ∨ svc = ServiceRead.ok (some [])) :
    get_loadbalancer_url svc = none ∧ configure_pod_manager_url svc fs = some fs := by
  rcases h with h | h <;> subst h <;>
    exact ⟨rfl, rfl⟩

/-- Witness for C2 at a concrete unready service and a concrete `.env` file. -/
theorem C2_witness :
    get_loadbalancer_url (ServiceRead.ok none) = none ∧
      configure_pod_manager_url (ServiceRead.ok none) (some [( "A=\"1\"").toList])
        = some (some [( "A=\"1\"").toList]) :=
  C2_unready_endpoint (ServiceRead.ok none) (some [( "A=\"1\"").toList]) (Or.inl rfl)

/-- Claim C7: when the first ingress entry of the manager service reports both a
numeric address and a hostname, the resolved endpoint is the numeric address. -/
theorem C7_ip_preferred (ip hn : Str) (rest : List LBIngress)
    (hip : ip ≠ []) (_hhn : hn ≠ []) :
    get_loadbalancer_url
        (ServiceRead.ok (some ({ ip := some ip, hostname := some hn } :: rest)))
      = some ip := by
  have h1 : truthyOpt (some ip) = true := by
    simp [truthyOpt, hip]
  simp [get_loadbalancer_url, h1]

/-- Witness for C7: a service reporting IP `10.0.0.9` and hostname `lb.example`. -/
theorem C7_witness :
    ( "10.0.0.9").toList ≠ [] ∧ ( "lb.example").toList ≠ [] ∧
      get_loadbalancer_url
          (ServiceRead.ok (some
            [{ ip := some (( "10.0.0.9").toList), hostname := some (( "lb.example").toList) }]))
        = some (( "10.0.0.9").toList) :=
  ⟨by decide, by decide,
    C7_ip_preferred (( "10.0.0.9").toList) (( "lb.example").toList) [] (by decide) (by decide)⟩

/-- Claim C9: `get_loadbalancer_url` inspects only the first ingress entry (later
entries never influence the result); it returns the first entry's IP when that
attribute is present as a nonempty string, otherwise the first entry's hostname when
present, otherwise no address; and an `ApiException` while reading the service yields
`none` rather than a propagated exception. -/
theorem C9_first_ingress_rule (first : LBIngress) (rest : List LBIngress) (st : Nat) :
    (get_loadbalancer_url (ServiceRead.ok (some (first :: rest)))
        = get_loadbalancer_url (ServiceRead.ok (some [first])))
    ∧ (∀ ip : Str, first.ip = some ip → ip ≠ [] →
        get_loadbalancer_url (ServiceRead.ok (some (first :: rest))) = some ip)
    ∧ (truthyOpt first.ip = false → ∀ hn : Str, first.hostname = some hn → hn ≠ [] →
        get_loadbalancer_url (ServiceRead.ok (some (first :: rest))) = some hn)
    ∧ (truthyOpt first.ip = false → truthyOpt first.hostname = false →
        get_loadbalancer_url (ServiceRead.ok (some (first :: rest))) = none)
    ∧ get_loadbalancer_url (ServiceRead.apiError st) = none := by
  refine ⟨rfl, ?_, ?_, ?_, rfl⟩
  · intro ip hip hne
    have h1 : truthyOpt (some ip) = true := by
      simp [truthyOpt, hne]
    simp [get_loadbalancer_url, hip, h1]
  · intro hip hn hhn hne
    have h1 : truthyOpt (some hn) = true := by
      simp [truthyOpt, hne]
    simp [get_loadbalancer_url, hip, hhn, h1]
  · intro hip hhn
    simp [get_loadbalancer_url, hip, hhn]

/-- Witness for C9 at a concrete ingress entry carrying only a hostname. -/
theorem C9_witness :
    (get_loadbalancer_url
        (ServiceRead.ok (some
          [{ ip := none, hostname := some (( "lb.example").toList) },
           { ip := some (( "10.0.0.9").toList), hostname := none }]))
      = get_loadbalancer_url
          (ServiceRead.ok (some [{ ip := none, hostname := some (( "lb.example").toList) }])))
    ∧ get_loadbalancer_url
        (ServiceRead.ok (some
          [{ ip := none, hostname := some (( "lb.example").toList) },
           { ip := some (( "10.0.0.9").toList), hostname := none }]))
      = some (( "lb.example").toList)
    ∧ get_loadbalancer_url (ServiceRead.apiError 500) = none := by
  refine ⟨?_, ?_, ?_⟩
  · exact (C9_first_ingress_rule
      { ip := none, hostname := some (( "lb.example").toList) }
      [{ ip := some (( "10.0.0.9").toList), hostname := none }] 500).1
  · exact (C9_first_ingress_rule
      { ip := none, hostname := some (( "lb.example").toList) }
      [{ ip := some (( "10.0.0.9").toList), hostname := none }] 500).2.2.1
      rfl (( "lb.example").toList) rfl (by decide)
  · exact (C9_first_ingress_rule
      { ip := none, hostname := some (( "lb.example").toList) }
      [{ ip := some (( "10.0.0.9").toList), hostname := none }] 500).2.2.2.2

/-- Claim C10: whenever no manager address resolves, `configure_pod_manager_url`
performs no write at all — the `.env` store (present or absent, including any
previously persisted endpoint) is returned unchanged. -/
theorem C10_no_url_no_write (svc : ServiceRead) (fs : Option (List Str))
    (h : get_loadbalancer_url svc = none) :
    configure_pod_manager_url svc fs = some fs := by
  unfold configure_pod_manager_url
  rw [h]

/-- Witness for C10: an API error while reading the service leaves a previously
persisted endpoint line untouched. -/
theorem C10_witness :
    get_loadbalancer_url (ServiceRead.apiError 403) = none ∧
      configure_pod_manager_url (ServiceRead.apiError 403)
          (some [( "POD_MANAGER_URL=\"http://1.2.3.4:8000\"").toList])
        = some (some [( "POD_MANAGER_URL=\"http://1.2.3.4:8000\"").toList]) :=
  ⟨rfl, C10_no_url_no_write (ServiceRead.apiError 403)
    (some [( "POD_MANAGER_URL=\"http://1.2.3.4:8000\"").toList]) rfl⟩

/-- Claim C1, counterexample: routing a remote-mode import with no persisted
ManagerEndpoint does not raise a `ConfigurationError`.  At the concrete input
(`pkg.mod` configured remote, `POD_MANAGER_URL` unset) `jac_import` returns
normally with a proxy constructed around the absent endpoint. -/
theorem C1_counterexample :
    jac_import remoteConfigMap none get_module_proxy_spec examplePyImporter
        exampleJacImporter exampleRequest exampleCluster
      = (Except.ok [ModuleLike.proxy (( "pkg.mod").toList) none], exampleCluster)
    ∧ (jac_import remoteConfigMap none get_module_proxy_spec examplePyImporter
        exampleJacImporter exampleRequest exampleCluster).1
      ≠ Except.error ImportError.configurationError := by
  refine ⟨rfl, fun h => ?_⟩
  rw [show (jac_import remoteConfigMap none get_module_proxy_spec examplePyImporter
      exampleJacImporter exampleRequest exampleCluster).1
      = Except.ok [ModuleLike.proxy (( "pkg.mod").toList) none] from rfl] at h
  exact Except.noConfusion h

/-- Claim C1 as amended: for every import request whose target module is configured
remote while no ManagerEndpoint is persisted, `jac_import` performs no cluster-state
mutation, but instead of raising a `ConfigurationError` it hands the absent endpoint
to the proxy factory and returns the resulting proxy as the sole result. -/
theorem C1_amended (module_config : List (Str × ModuleConfig)) (cfg : ModuleConfig)
    (gmp : Str → ModuleConfig → Option Str → ModuleLike)
    (pyImporter : ImportPathSpec → ImportResult)
    (jacImporter : ImportPathSpec → Option Bool → ImportResult)
    (req : ImportRequest) (cluster : ClusterState)
    (hc : lookupConfig module_config req.target = some cfg)
    (hr : cfg.load_type = remoteLoadType) :
    jac_import module_config none gmp pyImporter jacImporter req cluster
      = (Except.ok [gmp req.target cfg none], cluster) := by
  unfold jac_import
  rw [hc]
  simp [hr]

/-- Witness for C1's amended claim at the concrete remote configuration. -/
theorem C1_amended_witness :
    lookupConfig remoteConfigMap exampleRequest.target = some remoteConfigExample
    ∧ remoteConfigExample.load_type = remoteLoadType
    ∧ jac_import remoteConfigMap none get_module_proxy_spec examplePyImporter
        exampleJacImporter exampleRequest exampleCluster
      = (Except.ok [get_module_proxy_spec exampleRequest.target remoteConfigExample none],
         exampleCluster) :=
  ⟨rfl, rfl,
    C1_amended remoteConfigMap remoteConfigExample get_module_proxy_spec examplePyImporter
      exampleJacImporter exampleRequest exampleCluster rfl rfl⟩

/-- Claim C5: when the target's ModuleConfig is absent or its load-mode is `local`,
`jac_import` delegates to the external local importer — the result is exactly
`jac_import_local`, an expression in which neither the persisted ManagerEndpoint nor
the proxy factory (and hence the proxy cache it manages) occurs; when the load-mode
is `remote`, the result is the proxy alone, independent of both local importers. -/
theorem C5_routing (module_config : List (Str × ModuleConfig)) (url : Option Str)
    (gmp : Str → ModuleConfig → Option Str → ModuleLike)
    (pyImporter : ImportPathSpec → ImportResult)
    (jacImporter : ImportPathSpec → Option Bool → ImportResult)
    (req : ImportRequest) (cluster : ClusterState) :
    ((lookupConfig module_config req.target = none ∨
        ∃ cfg, lookupConfig module_config req.target = some cfg
          ∧ cfg.load_type = ( "local").toList) →
      jac_import module_config url gmp pyImporter jacImporter req cluster
        = jac_import_local pyImporter jacImporter req cluster)
    ∧ (∀ cfg, lookupConfig module_config req.target = some cfg →
        cfg.load_type = remoteLoadType →
        jac_import module_config url gmp pyImporter jacImporter req cluster
          = (Except.ok [gmp req.target cfg url], cluster)) := by
  constructor
  · intro h
    rcases h with h | ⟨cfg, hc, hl⟩
    · unfold jac_import
      rw [h]
    · unfold jac_import
      rw [hc]
      have hne : ¬ cfg.load_type = remoteLoadType := by
        rw [hl]
        decide
      simp [hne]
  · intro cfg hc hr
    unfold jac_import
    rw [hc]
    simp [hr]

/-- Witness for C5: the local side at a module absent from the config table, and the
remote side at the remote-configured module. -/
theorem C5_witness :
    jac_import [] none get_module_proxy_spec examplePyImporter exampleJacImporter
        exampleRequest exampleCluster
      = jac_import_local examplePyImporter exampleJacImporter exampleRequest exampleCluster
    ∧ jac_import remoteConfigMap none get_module_proxy_spec examplePyImporter
        exampleJacImporter exampleRequest exampleCluster
      = (Except.ok [get_module_proxy_spec exampleRequest.target remoteConfigExample none],
         exampleCluster) :=
  ⟨(C5_routing [] none get_module_proxy_spec examplePyImporter exampleJacImporter
      exampleRequest exampleCluster).1 (Or.inl rfl),
   (C5_routing remoteConfigMap none get_module_proxy_spec examplePyImporter
      exampleJacImporter exampleRequest exampleCluster).2 remoteConfigExample rfl rfl⟩

/-- Claim C6: on the local path, `jac_import` returns the single whole-module object
when `absorb` is set or no items were requested, and otherwise the tuple of
`ret_items`; with the spec's importer model that tuple is exactly the requested named
items in request order; and a remote-mode module always takes the whole-module
branch, returning the single-element tuple holding the proxy regardless of `absorb`
and `items`. -/
theorem C6_return_shape (module_config : List (Str × ModuleConfig)) (url : Option Str)
    (gmp : Str → ModuleConfig → Option Str → ModuleLike)
    (pyImporter : ImportPathSpec → ImportResult)
    (jacImporter : ImportPathSpec → Option Bool → ImportResult)
    (req : ImportRequest) (cluster : ClusterState) :
    ((lookupConfig module_config req.target = none) →
      ((req.absorb = true ∨ truthyItems req.items = false) →
        jac_import module_config url gmp pyImporter jacImporter req cluster
          = (Except.ok [(if req.lng = some pyLng then pyImporter (toSpec req)
              else jacImporter (toSpec req) req.reload_module).ret_mod], cluster))
      ∧ (req.absorb = false → truthyItems req.items = true →
        jac_import module_config url gmp pyImporter jacImporter req cluster
          = (Except.ok (if req.lng = some pyLng then pyImporter (toSpec req)
              else jacImporter (toSpec req) req.reload_module).ret_items, cluster)))
    ∧ (∀ resolve : Str → ModuleLike, ∀ its : List (Str × Option Str),
        lookupConfig module_config req.target = none →
        req.absorb = false → req.items = some its → its ≠ [] → req.lng = none →
        jac_import module_config url gmp pyImporter
            (fun spec _ => importerSpecModel resolve spec) req cluster
          = (Except.ok (its.map (fun kv => resolve kv.1)), cluster))
    ∧ (∀ cfg, lookupConfig module_config req.target = some cfg →
        cfg.load_type = remoteLoadType →
        jac_import module_config url gmp pyImporter jacImporter req cluster
          = (Except.ok [gmp req.target cfg url], cluster)
        ∧ [gmp req.target cfg url].length = 1) := by
  refine ⟨?_, ?_, ?_⟩
  · intro h
    constructor
    · intro habs
      unfold jac_import
      rw [h]
      unfold jac_import_local
      rcases habs with habs | habs <;> simp [habs]
    · intro habs hit
      unfold jac_import
      rw [h]
      unfold jac_import_local
      simp [habs, hit]
  · intro resolve its h habs hit hne hlng
    unfold jac_import
    rw [h]
    unfold jac_import_local
    have ht : truthyItems (some its) = true := by
      simp [truthyItems, hne]
    have hpy : ¬ req.lng = some pyLng := by
      rw [hlng]
      simp
    simp [habs, ht, hpy, importerSpecModel, toSpec, hit]
  · intro cfg hc hr
    unfold jac_import
    rw [hc]
    simp [hr]

/-- Witness for C6: the §8 scenario.  The concrete request (`absorb=False`,
`items={"a": None, "b": "c"}`) on a locally resolved module returns the two
requested bindings in request order, and the same call on the remote-configured
module returns the single-element tuple holding the proxy. -/
theorem C6_witness :
    jac_import [] none get_module_proxy_spec examplePyImporter
        (fun spec _ => importerSpecModel exampleResolve spec) exampleRequest exampleCluster
      = (Except.ok [ModuleLike.localModule (( "a").toList),
          ModuleLike.localModule (( "b").toList)], exampleCluster)
    ∧ jac_import remoteConfigMap none get_module_proxy_spec examplePyImporter
        exampleJacImporter exampleRequest exampleCluster
      = (Except.ok [get_module_proxy_spec exampleRequest.target remoteConfigExample none],
         exampleCluster) := by
  constructor
  · have h := (C6_return_shape [] none get_module_proxy_spec examplePyImporter
      exampleJacImporter exampleRequest exampleCluster).2.1 exampleResolve
      [(( "a").toList, none), (( "b").toList, some (( "c").toList))]
      rfl rfl rfl (by decide) rfl
    exact h
  · exact ((C6_return_shape remoteConfigMap none get_module_proxy_spec examplePyImporter
      exampleJacImporter exampleRequest exampleCluster).2.2 remoteConfigExample rfl rfl).1

theorem ensureIn_of_mem {α : Type} [DecidableEq α] (l : List α) (x : α)
    (h : l.any (fun y => decide (y = x)) = true) : ensureIn l x = l := by
  unfold ensureIn
  rw [if_pos h]

theorem ensureIn_mem {α : Type} [DecidableEq α] (l : List α) (x : α) :
    (ensureIn l x).any (fun y => decide (y = x)) = true := by
  unfold ensureIn
  split
  · assumption
  · simp

theorem ensureIn_idem {α : Type} [DecidableEq α] (l : List α) (x : α) :
    ensureIn (ensureIn l x) x = ensureIn l x :=
  ensureIn_of_mem (ensureIn l x) x (ensureIn_mem l x)

theorem create_namespace_spec (name : Str) (s : ClusterState) :
    create_namespace name s = { s with namespaces := ensureIn s.namespaces name } := by
  unfold create_namespace ensureIn
  split
  · exact rfl
  · rfl

theorem create_service_account_run_spec (ns : Str) (s : ClusterState) :
    create_service_account_run ns s =
      Except.ok { namespaces := s.namespaces,
                  serviceAccounts := ensureIn s.serviceAccounts (ns, serviceAccountName),
                  roles := ensureIn s.roles (ns, roleName),
                  roleBindings := ensureIn s.roleBindings (ns, roleBindingName) } := by
  unfold create_service_account_run readServiceAccount readRole readRoleBinding
    serviceAccountStep roleStep roleBindingStep ensureIn
  by_cases h1 : s.serviceAccounts.any (fun p => decide (p = (ns, serviceAccountName))) = true <;>
    by_cases h2 : s.roles.any (fun p => decide (p = (ns, roleName))) = true <;>
      by_cases h3 : s.roleBindings.any (fun p => decide (p = (ns, roleBindingName))) = true <;>
        simp [h1, h2, h3]

theorem ensure_ready_spec (s : ClusterState) :
    ensure_ready s =
      Except.ok (theIdentity,
        { namespaces := ensureIn s.namespaces namespaceName,
          serviceAccounts := ensureIn s.serviceAccounts (namespaceName, serviceAccountName),
          roles := ensureIn s.roles (namespaceName, roleName),
          roleBindings := ensureIn s.roleBindings (namespaceName, roleBindingName) }) := by
  unfold ensure_ready
  rw [create_namespace_spec, create_service_account_run_spec]

/-- Claim C3: cluster bootstrap is idempotent.  From any starting cluster state the
first `ensure_ready` run succeeds with the fixed ClusterIdentity, and running it
again from the resulting state raises no error, returns the same identity, and
leaves the cluster state exactly as after the first run. -/
theorem C3_bootstrap_idempotent (s : ClusterState) :
    ∃ s2, ensure_ready s = Except.ok (theIdentity, s2)
      ∧ ensure_ready s2 = Except.ok (theIdentity, s2) := by
  refine ⟨_, ensure_ready_spec s, ?_⟩
  rw [ensure_ready_spec]
  simp [ensureIn_idem]

/-- Claim C8: during bootstrap, each read-or-create step (service account, role,
role binding) propagates any control-plane failure other than the "not found" /
"already exists" conditions, aborting the whole `create_service_account` sequence
with the underlying status as the cause — no later step runs.  Both halves of each
step are covered: a read failing with a status other than 404, and a create (run
after a 404 read) failing with any status, which the source leaves uncaught.  A read
that finds the object — the "already exists" case — is not a failure. -/
theorem C8_fault_propagation (e : Nat) (ns : Str) (s : ClusterState)
    (rSA rRole rBinding : ApiRead) (cSA cRole cBinding : CreateResult) (he : e ≠ 404) :
    (serviceAccountStep (ApiRead.apiError e) cSA ns s = Except.error e
      ∧ create_service_account (ApiRead.apiError e) cSA rRole cRole rBinding cBinding ns s
          = Except.error e)
    ∧ ((rSA = ApiRead.found ∨ (rSA = ApiRead.apiError 404 ∧ cSA = CreateResult.ok)) →
        create_service_account rSA cSA (ApiRead.apiError e) cRole rBinding cBinding ns s
          = Except.error e)
    ∧ ((rSA = ApiRead.found ∨ (rSA = ApiRead.apiError 404 ∧ cSA = CreateResult.ok)) →
        (rRole = ApiRead.found ∨ (rRole = ApiRead.apiError 404 ∧ cRole = CreateResult.ok)) →
        create_service_account rSA cSA rRole cRole (ApiRead.apiError e) cBinding ns s
          = Except.error e)
    ∧ (∀ ce : Nat,
        serviceAccountStep (ApiRead.apiError 404) (CreateResult.apiError ce) ns s
          = Except.error ce
        ∧ create_service_account (ApiRead.apiError 404) (CreateResult.apiError ce)
            rRole cRole rBinding cBinding ns s = Except.error ce)
    ∧ (∀ ce : Nat,
        (rSA = ApiRead.found ∨ (rSA = ApiRead.apiError 404 ∧ cSA = CreateResult.ok)) →
        create_service_account rSA cSA (ApiRead.apiError 404) (CreateResult.apiError ce)
            rBinding cBinding ns s = Except.error ce)
    ∧ (∀ ce : Nat,
        (rSA = ApiRead.found ∨ (rSA = ApiRead.apiError 404 ∧ cSA = CreateResult.ok)) →
        (rRole = ApiRead.found ∨ (rRole = ApiRead.apiError 404 ∧ cRole = CreateResult.ok)) →
        create_service_account rSA cSA rRole cRole (ApiRead.apiError 404)
            (CreateResult.apiError ce) ns s = Except.error ce) := by
  refine ⟨⟨?_, ?_⟩, ?_, ?_, ?_, ?_, ?_⟩
  · simp [serviceAccountStep, he]
  · simp [create_service_account, serviceAccountStep, he]
  · intro hsa
    rcases hsa with h | ⟨h, hc⟩ <;> subst h <;> try subst hc
    all_goals
      simp [create_service_account, serviceAccountStep, create_role_and_binding, roleStep, he]
  · intro hsa hrole
    rcases hsa with h | ⟨h, hc⟩ <;> subst h <;> try subst hc
    all_goals
      rcases hrole with h2 | ⟨h2, hc2⟩ <;> subst h2 <;> try subst hc2
    all_goals
      simp [create_service_account, serviceAccountStep, create_role_and_binding,
        roleStep, roleBindingStep, he]
  · intro ce
    constructor
    · simp [serviceAccountStep]
    · simp [create_service_account, serviceAccountStep]
  · intro ce hsa
    rcases hsa with h | ⟨h, hc⟩ <;> subst h <;> try subst hc
    all_goals
      simp [create_service_account, serviceAccountStep, create_role_and_binding, roleStep]
  · intro ce hsa hrole
    rcases hsa with h | ⟨h, hc⟩ <;> subst h <;> try subst hc
    all_goals
      rcases hrole with h2 | ⟨h2, hc2⟩ <;> subst h2 <;> try subst hc2
    all_goals
      simp [create_service_account, serviceAccountStep, create_role_and_binding,
        roleStep, roleBindingStep]

/-- Witness for C8 on an empty cluster: a 500 read failure and a 503 creation
failure injected at each of the three steps each abort the bootstrap with exactly
that status. -/
theorem C8_witness :
    (500 : Nat) ≠ 404
    ∧ create_service_account (ApiRead.apiError 500) CreateResult.ok ApiRead.found
        CreateResult.ok ApiRead.found CreateResult.ok namespaceName exampleCluster
      = Except.error 500
    ∧ create_service_account (ApiRead.apiError 404) (CreateResult.apiError 503)
        ApiRead.found CreateResult.ok ApiRead.found CreateResult.ok namespaceName
        exampleCluster = Except.error 503
    ∧ create_service_account ApiRead.found CreateResult.ok (ApiRead.apiError 500)
        CreateResult.ok ApiRead.found CreateResult.ok namespaceName exampleCluster
      = Except.error 500
    ∧ create_service_account ApiRead.found CreateResult.ok (ApiRead.apiError 404)
        (CreateResult.apiError 503) ApiRead.found CreateResult.ok namespaceName
        exampleCluster = Except.error 503
    ∧ create_service_account ApiRead.found CreateResult.ok ApiRead.found
        CreateResult.ok (ApiRead.apiError 404) (CreateResult.apiError 503) namespaceName
        exampleCluster = Except.error 503 :=
  ⟨by decide,
    ((C8_fault_propagation 500 namespaceName exampleCluster ApiRead.found ApiRead.found
      ApiRead.found CreateResult.ok CreateResult.ok CreateResult.ok (by decide)).1).2,
    ((C8_fault_propagation 500 namespaceName exampleCluster ApiRead.found ApiRead.found
      ApiRead.found CreateResult.ok CreateResult.ok CreateResult.ok
      (by decide)).2.2.2.1 503).2,
    (C8_fault_propagation 500 namespaceName exampleCluster ApiRead.found ApiRead.found
      ApiRead.found CreateResult.ok CreateResult.ok CreateResult.ok (by decide)).2.1
      (Or.inl rfl),
    (C8_fault_propagation 500 namespaceName exampleCluster ApiRead.found ApiRead.found
      ApiRead.found CreateResult.ok CreateResult.ok CreateResult.ok
      (by decide)).2.2.2.2.1 503 (Or.inl rfl),
    (C8_fault_propagation 500 namespaceName exampleCluster ApiRead.found ApiRead.found
      ApiRead.found CreateResult.ok CreateResult.ok CreateResult.ok
      (by decide)).2.2.2.2.2 503 (Or.inl rfl) (Or.inl rfl)⟩

theorem dropWhile_head (p : Char → Bool) (x : Str) (c : Char) (t : Str)
    (h : x.dropWhile p = c :: t) : p c = false := by
  induction x with
  | nil => simp at h
  | cons a l ih =>
    rw [List.dropWhile_cons] at h
    by_cases hpa : p a = true
    · exact ih (by rwa [if_pos hpa] at h)
    · rw [if_neg hpa] at h
      cases h
      simpa using hpa

theorem rstripBy_prefix (p : Char → Bool) (x : Str) : ∃ t, x = rstripBy p x ++ t := by
  refine ⟨(x.reverse.takeWhile p).reverse, ?_⟩
  unfold rstripBy
  calc x = x.reverse.reverse := (List.reverse_reverse x).symm
    _ = (x.reverse.takeWhile p ++ x.reverse.dropWhile p).reverse := by
          rw [List.takeWhile_append_dropWhile]
    _ = (x.reverse.dropWhile p).reverse ++ (x.reverse.takeWhile p).reverse := by
          rw [List.reverse_append]

theorem rstripBy_last (p : Char → Bool) (z y : Str) (c : Char)
    (h : rstripBy p z = y ++ [c]) : p c = false := by
  have h2 : z.reverse.dropWhile p = c :: y.reverse := by
    have h3 := congrArg List.reverse h
    rw [rstripBy] at h3
    simpa using h3
  exact dropWhile_head p z.reverse c y.reverse h2

theorem stripBoth_head (p : Char → Bool) (z : Str) (c : Char) (t : Str)
    (h : rstripBy p (lstripBy p z) = c :: t) : p c = false := by
  obtain ⟨suf, hsuf⟩ := rstripBy_prefix p (lstripBy p z)
  rw [h] at hsuf
  exact dropWhile_head p z c (t ++ suf) (by simpa [lstripBy] using hsuf)

theorem lstripBy_of_head (p : Char → Bool) (c : Char) (t : Str) (h : p c = false) :
    lstripBy p (c :: t) = c :: t := by
  simp [lstripBy, List.dropWhile_cons, h]

theorem rstripBy_append_two (p : Char → Bool) (u : Str) (b c : Char)
    (hb : p b = false) (hc : p c = true) :
    rstripBy p ((u ++ [b]) ++ [c]) = u ++ [b] := by
  unfold rstripBy
  simp [List.reverse_append, List.dropWhile_cons, hb, hc]

theorem rstripBy_of_last (p : Char → Bool) (y : Str) (c : Char) (h : p c = false) :
    rstripBy p (y ++ [c]) = y ++ [c] := by
  unfold rstripBy
  simp [List.reverse_append, List.dropWhile_cons, h]

theorem stripBoth_eq_self (p : Char → Bool) (x : Str)
    (hh : ∀ c t, x = c :: t → p c = false)
    (hl : ∀ t c, x = t ++ [c] → p c = false) :
    rstripBy p (lstripBy p x) = x := by
  cases x with
  | nil => simp [lstripBy, rstripBy]
  | cons a l =>
    rw [lstripBy_of_head p a l (hh a l rfl)]
    have hne : a :: l ≠ [] := List.cons_ne_nil a l
    have hd := List.dropLast_append_getLast hne
    rw [← hd]
    exact rstripBy_of_last p (a :: l).dropLast ((a :: l).getLast hne)
      (hl (a :: l).dropLast ((a :: l).getLast hne) hd.symm)

theorem stripQuotes_stripQuotes (r : Str) : stripQuotes (stripQuotes r) = stripQuotes r := by
  show rstripBy (fun c => decide (c = '"'))
      (lstripBy (fun c => decide (c = '"')) (stripQuotes r)) = stripQuotes r
  apply stripBoth_eq_self
  · intro c t h
    exact stripBoth_head (fun c => decide (c = '"')) r c t h
  · intro t c h
    exact rstripBy_last (fun c => decide (c = '"'))
      (lstripBy (fun c => decide (c = '"')) r) t c h

theorem stripQuotes_quoted (w : Str) (hw : stripQuotes w = w) :
    stripQuotes (( '"') :: (w ++ [ '"'])) = w := by
  cases w with
  | nil => decide
  | cons a l =>
    have ha : (fun c => decide (c = '"')) a = false :=
      stripBoth_head (fun c => decide (c = '"')) (a :: l) a l hw
    have hne : a :: l ≠ [] := List.cons_ne_nil a l
    have hd := List.dropLast_append_getLast hne
    have hc : (fun c => decide (c = '"')) ((a :: l).getLast hne) = false :=
      rstripBy_last (fun c => decide (c = '"'))
        (lstripBy (fun c => decide (c = '"')) (a :: l))
        (a :: l).dropLast ((a :: l).getLast hne) (hw.trans hd.symm)
    show rstripBy (fun c => decide (c = '"'))
        (lstripBy (fun c => decide (c = '"')) (( '"') :: ((a :: l) ++ [ '"']))) = a :: l
    have hl1 : lstripBy (fun c => decide (c = '"')) (( '"') :: ((a :: l) ++ [ '"']))
        = (a :: l) ++ [ '"'] := by
      have h1 : lstripBy (fun c => decide (c = '"')) (( '"') :: ((a :: l) ++ [ '"']))
          = lstripBy (fun c => decide (c = '"')) ((a :: l) ++ [ '"']) := by
        simp [lstripBy, List.dropWhile_cons]
      rw [h1]
      exact lstripBy_of_head (fun c => decide (c = '"')) a (l ++ [ '"']) ha
    rw [hl1, ← hd]
    exact rstripBy_append_two (fun c => decide (c = '"'))
      (a :: l).dropLast ((a :: l).getLast hne) ( '"') hc (by decide)

theorem splitOnceEq_append (k r : Str) (hk : ( '=') ∉ k) :
    splitOnceEq (k ++ ( '=') :: r) = some (k, r) := by
  induction k with
  | nil => simp [splitOnceEq]
  | cons a t ih =>
    have ha : ¬ a = '=' := fun h => hk (by simp [h])
    have ht : ( '=') ∉ t := fun h => hk (List.mem_cons_of_mem a h)
    simp [splitOnceEq, ha, ih ht]

theorem splitOnceEq_inv (s : Str) : ∀ k r : Str, splitOnceEq s = some (k, r) →
    s = k ++ ( '=') :: r ∧ ( '=') ∉ k := by
  induction s with
  | nil => intro k r h; simp [splitOnceEq] at h
  | cons a t ih =>
    intro k r h
    by_cases ha : a = '='
    · subst ha
      simp [splitOnceEq] at h
      obtain ⟨hk, hr⟩ := h
      subst hk
      subst hr
      simp
    · rw [show splitOnceEq (a :: t) = (match splitOnceEq t with
        | some (k2, v) => some (a :: k2, v)
        | none => none) from by simp [splitOnceEq, ha]] at h
      cases hst : splitOnceEq t with
      | none =>
        rw [hst] at h
        simp at h
      | some kv =>
        obtain ⟨k2, r2⟩ := kv
        rw [hst] at h
        simp at h
        obtain ⟨hk, hr⟩ := h
        obtain ⟨he, hm⟩ := ih k2 r2 hst
        subst hk
        subst hr
        refine ⟨by simp [he], ?_⟩
        intro hmem
        rcases List.mem_cons.mp hmem with h1 | h1
        · exact ha h1.symm
        · exact hm h1

theorem headNotSpace_pyStrip (line : Str) : headNotSpace (pyStrip line) = true := by
  cases hs : pyStrip line with
  | nil => rfl
  | cons a t =>
    have ha := stripBoth_head isPySpace line a t hs
    simp [headNotSpace, ha]

theorem headNotSpace_append (x y : Str) (h : headNotSpace (x ++ y) = true) :
    headNotSpace x = true := by
  cases x with
  | nil => rfl
  | cons a t => simpa [headNotSpace] using h

theorem parseEnvLine_entry_inv (line k w : Str)
    (h : parseEnvLine line = EnvLine.entry k w) : EnvNormal (k, w) := by
  unfold parseEnvLine at h
  by_cases hb : pyStrip line = []
  · simp [hb] at h
  · cases hsp : splitOnceEq (pyStrip line) with
    | none => simp [hb, hsp] at h
    | some kv =>
      obtain ⟨k2, r2⟩ := kv
      simp [hb, hsp] at h
      obtain ⟨hk, hwv⟩ := h
      have hinv := splitOnceEq_inv (pyStrip line) k2 r2 hsp
      refine ⟨hk ▸ hinv.2, ?_, hwv ▸ stripQuotes_stripQuotes r2⟩
      have hh2 : headNotSpace k2 = true :=
        headNotSpace_append k2 (( '=') :: r2) (hinv.1 ▸ headNotSpace_pyStrip line)
      exact hk ▸ hh2

theorem parseEnvLine_writeEnvLine (k w : Str) (hk : ( '=') ∉ k)
    (hh : headNotSpace k = true) (hw : stripQuotes w = w) :
    parseEnvLine (writeEnvLine (k, w)) = EnvLine.entry k w := by
  have hstrip : pyStrip (writeEnvLine (k, w)) = writeEnvLine (k, w) := by
    apply stripBoth_eq_self
    · intro c t hct
      cases k with
      | nil =>
        have h2 : (( '=') :: (( '"') :: (w ++ [ '"'])) : Str) = c :: t := hct
        injection h2 with h3 h4
        rw [← h3]
        decide
      | cons a as =>
        have h2 : (a :: (as ++ ( '=') :: (( '"') :: (w ++ [ '"']))) : Str) = c :: t := hct
        injection h2 with h3 h4
        rw [← h3]
        simpa [headNotSpace] using hh
    · intro t c htc
      have h2 : ((k ++ ( '=') :: (( '"') :: w)) ++ [ '"'] : Str) = t ++ [c] := by
        rw [← htc]
        simp [writeEnvLine]
      have h3 := congrArg List.getLast? h2
      rw [List.getLast?_concat, List.getLast?_concat] at h3
      injection h3 with h4
      rw [← h4]
      decide
  have hne : writeEnvLine (k, w) ≠ [] := by
    cases k with
    | nil => simp [writeEnvLine]
    | cons a as => simp [writeEnvLine]
  have hsplit : splitOnceEq (writeEnvLine (k, w)) = some (k, ( '"') :: (w ++ [ '"'])) :=
    splitOnceEq_append k (( '"') :: (w ++ [ '"'])) hk
  simp [parseEnvLine, hstrip, hne, hsplit, stripQuotes_quoted w hw]

theorem dictInsert_not_mem (m : List (Str × Str)) (k v : Str)
    (h : ∀ p ∈ m, p.1 ≠ k) : dictInsert m k v = m ++ [(k, v)] := by
  unfold dictInsert
  rw [if_neg]
  intro hc
  rw [List.any_eq_true] at hc
  obtain ⟨p, hp, hpk⟩ := hc
  exact h p hp (of_decide_eq_true hpk)

theorem dictInsert_normal (m : List (Str × Str)) (k v : Str)
    (hm : ∀ p ∈ m, EnvNormal p) (hkv : EnvNormal (k, v)) :
    ∀ p ∈ dictInsert m k v, EnvNormal p := by
  intro p hp
  unfold dictInsert at hp
  by_cases hc : m.any (fun q => decide (q.1 = k)) = true
  · rw [if_pos hc] at hp
    obtain ⟨q, hq, hqe⟩ := List.mem_map.mp hp
    by_cases hqk : q.1 = k
    · rw [if_pos hqk] at hqe
      exact hqe ▸ hkv
    · rw [if_neg hqk] at hqe
      exact hqe ▸ hm q hq
  · rw [if_neg hc] at hp
    rcases List.mem_append.mp hp with h1 | h1
    · exact hm p h1
    · have h2 : p = (k, v) := by simpa using h1
      exact h2 ▸ hkv

theorem map_update_fst (m : List (Str × Str)) (k v : Str) :
    (m.map (fun p => if p.1 = k then (k, v) else p)).map Prod.fst = m.map Prod.fst := by
  rw [List.map_map]
  apply List.map_congr_left
  intro p _
  by_cases hp : p.1 = k
  · simp [hp]
  · simp [hp]

theorem dictInsert_nodup (m : List (Str × Str)) (k v : Str)
    (h : (m.map Prod.fst).Nodup) : ((dictInsert m k v).map Prod.fst).Nodup := by
  unfold dictInsert
  by_cases hc : m.any (fun q => decide (q.1 = k)) = true
  · rw [if_pos hc, map_update_fst]
    exact h
  · rw [if_neg hc]
    have hk : ∀ q ∈ m, ¬ q.1 = k := by
      intro q hq hqk
      apply hc
      rw [List.any_eq_true]
      exact ⟨q, hq, decide_eq_true hqk⟩
    rw [List.map_append]
    rw [List.nodup_append]
    refine ⟨h, by simp, ?_⟩
    intro a hamem hbmem
    obtain ⟨q, hq, hqa⟩ := List.mem_map.mp hamem
    have hak : a = k := by simpa using hbmem
    exact hk q hq (by rw [hqa, hak])

theorem readEnvAux_inv (lines : List Str) : ∀ acc m : List (Str × Str),
    readEnvAux acc lines = some m →
    (∀ p ∈ acc, EnvNormal p) → ((acc.map Prod.fst).Nodup) →
    (∀ p ∈ m, EnvNormal p) ∧ (m.map Prod.fst).Nodup := by
  induction lines with
  | nil =>
    intro acc m h h1 h2
    have h3 : acc = m := by simpa [readEnvAux] using h
    subst h3
    exact ⟨h1, h2⟩
  | cons line rest ih =>
    intro acc m h h1 h2
    unfold readEnvAux at h
    cases hp : parseEnvLine line with
    | blank =>
      rw [hp] at h
      exact ih acc m h h1 h2
    | malformed =>
      rw [hp] at h
      simp at h
    | entry k v =>
      rw [hp] at h
      have hkv : EnvNormal (k, v) := parseEnvLine_entry_inv line k v hp
      exact ih (dictInsert acc k v) m h (dictInsert_normal acc k v h1 hkv)
        (dictInsert_nodup acc k v h2)

theorem readEnvAux_write (l : List (Str × Str)) : ∀ acc : List (Str × Str),
    (∀ p ∈ l, EnvNormal p) → ((l.map Prod.fst).Nodup) →
    (∀ p ∈ acc, ∀ q ∈ l, p.1 ≠ q.1) →
    readEnvAux acc (writeEnvLines l) = some (acc ++ l) := by
  induction l with
  | nil =>
    intro acc _ _ _
    simp [writeEnvLines, readEnvAux]
  | cons kv t ih =>
    intro acc hn hd hdisj
    obtain ⟨k, w⟩ := kv
    have hkv : EnvNormal (k, w) := hn (k, w) (List.mem_cons_self _ _)
    have hline : parseEnvLine (writeEnvLine (k, w)) = EnvLine.entry k w :=
      parseEnvLine_writeEnvLine k w hkv.1 hkv.2.1 hkv.2.2
    show readEnvAux acc (writeEnvLine (k, w) :: writeEnvLines t) = some (acc ++ (k, w) :: t)
    unfold readEnvAux
    rw [hline]
    show readEnvAux (dictInsert acc k w) (writeEnvLines t) = some (acc ++ (k, w) :: t)
    have hdi : dictInsert acc k w = acc ++ [(k, w)] := by
      apply dictInsert_not_mem
      intro p hp
      exact hdisj p hp (k, w) (List.mem_cons_self _ _)
    rw [hdi]
    have h1 : ∀ p ∈ t, EnvNormal p := fun p hp => hn p (List.mem_cons_of_mem _ hp)
    have h2 : (t.map Prod.fst).Nodup := List.Nodup.of_cons hd
    have hknot : k ∉ t.map Prod.fst := (List.nodup_cons.mp hd).1
    have h3 : ∀ p ∈ acc ++ [(k, w)], ∀ q ∈ t, p.1 ≠ q.1 := by
      intro p hp q hq
      rcases List.mem_append.mp hp with h4 | h4
      · exact hdisj p h4 q (List.mem_cons_of_mem _ hq)
      · have hpk : p = (k, w) := by simpa using h4
        subst hpk
        intro he
        apply hknot
        have he2 : k = q.1 := he
        rw [he2]
        exact List.mem_map_of_mem Prod.fst hq
    rw [ih (acc ++ [(k, w)]) h1 h2 h3]
    simp

theorem lookupStr_append_right (a b : List (Str × Str)) (k : Str)
    (h : ∀ p ∈ a, p.1 ≠ k) : lookupStr (a ++ b) k = lookupStr b k := by
  induction a with
  | nil => rfl
  | cons q t ih =>
    have hq : ¬ q.1 = k := h q (List.mem_cons_self _ _)
    show lookupStr (q :: (t ++ b)) k = lookupStr b k
    simp only [lookupStr]
    rw [if_neg hq]
    exact ih (fun p hp => h p (List.mem_cons_of_mem _ hp))

theorem lookupStr_update_self (m : List (Str × Str)) (k v : Str)
    (h : ∃ p ∈ m, p.1 = k) :
    lookupStr (m.map (fun p => if p.1 = k then (k, v) else p)) k = some v := by
  induction m with
  | nil => simp at h
  | cons q t ih =>
    simp only [List.map_cons]
    by_cases hq : q.1 = k
    · rw [if_pos hq]
      simp [lookupStr]
    · rw [if_neg hq]
      simp only [lookupStr]
      rw [if_neg hq]
      obtain ⟨p, hp, hpk⟩ := h
      rcases List.mem_cons.mp hp with h1 | h1
      · exact absurd (h1 ▸ hpk) hq
      · exact ih ⟨p, h1, hpk⟩

theorem lookupStr_update_ne (m : List (Str × Str)) (k v k2 : Str) (h : k2 ≠ k) :
    lookupStr (m.map (fun p => if p.1 = k then (k, v) else p)) k2 = lookupStr m k2 := by
  induction m with
  | nil => rfl
  | cons q t ih =>
    simp only [List.map_cons]
    by_cases hq : q.1 = k
    · rw [if_pos hq]
      have hkk : ¬ k = k2 := fun he => h he.symm
      have hqk : ¬ q.1 = k2 := by
        rw [hq]
        exact hkk
      simp only [lookupStr]
      rw [if_neg hkk, if_neg hqk]
      exact ih
    · rw [if_neg hq]
      simp only [lookupStr]
      by_cases hq2 : q.1 = k2
      · rw [if_pos hq2, if_pos hq2]
      · rw [if_neg hq2, if_neg hq2]
        exact ih

theorem lookupStr_append_single_ne (m : List (Str × Str)) (k v k2 : Str) (h : ¬ k = k2) :
    lookupStr (m ++ [(k, v)]) k2 = lookupStr m k2 := by
  induction m with
  | nil =>
    show lookupStr [(k, v)] k2 = none
    simp [lookupStr, h]
  | cons q t ih =>
    show lookupStr (q :: (t ++ [(k, v)])) k2 = lookupStr (q :: t) k2
    simp only [lookupStr]
    by_cases hq : q.1 = k2
    · rw [if_pos hq, if_pos hq]
    · rw [if_neg hq, if_neg hq]
      exact ih

theorem lookupStr_dictInsert_self (m : List (Str × Str)) (k v : Str) :
    lookupStr (dictInsert m k v) k = some v := by
  unfold dictInsert
  by_cases hc : m.any (fun p => decide (p.1 = k)) = true
  · rw [if_pos hc]
    apply lookupStr_update_self
    rw [List.any_eq_true] at hc
    obtain ⟨p, hp, hpk⟩ := hc
    exact ⟨p, hp, of_decide_eq_true hpk⟩
  · rw [if_neg hc]
    have h : ∀ p ∈ m, p.1 ≠ k := by
      intro p hp hpk
      apply hc
      rw [List.any_eq_true]
      exact ⟨p, hp, decide_eq_true hpk⟩
    rw [lookupStr_append_right m [(k, v)] k h]
    simp [lookupStr]

theorem lookupStr_dictInsert_ne (m : List (Str × Str)) (k v k2 : Str) (h : k2 ≠ k) :
    lookupStr (dictInsert m k v) k2 = lookupStr m k2 := by
  unfold dictInsert
  by_cases hc : m.any (fun p => decide (p.1 = k)) = true
  · rw [if_pos hc]
    exact lookupStr_update_ne m k v k2 h
  · rw [if_neg hc]
    exact lookupStr_append_single_ne m k v k2 (fun he => h he.symm)

theorem managerUrlValue_stripped (addr : Str) :
    stripQuotes (managerUrlValue addr) = managerUrlValue addr := by
  show rstripBy (fun c => decide (c = '"'))
      (lstripBy (fun c => decide (c = '"')) (managerUrlValue addr)) = managerUrlValue addr
  apply stripBoth_eq_self
  · intro c t h
    have h2 : ('h' :: ((( "ttp://").toList ++ addr) ++ ( ":8000").toList) : Str) = c :: t := h
    injection h2 with h3 h4
    rw [← h3]
    decide
  · intro t c h
    have h2 : (((( "http://").toList ++ addr ++ [ ':', '8', '0', '0']) ++ [ '0']) : Str)
        = t ++ [c] := by
      rw [← h]
      show (( "http://").toList ++ addr ++ [ ':', '8', '0', '0']) ++ [ '0']
          = managerUrlValue addr
      unfold managerUrlValue
      have h8 : ( ":8000").toList = ([ ':', '8', '0', '0'] ++ [ '0'] : Str) := by decide
      rw [h8, ← List.append_assoc]
    have h3 := congrArg List.getLast? h2
    rw [List.getLast?_concat, List.getLast?_concat] at h3
    injection h3 with h4
    rw [← h4]
    decide

/-- Claim C4: persisting the ManagerEndpoint into the `.env` store is merge-safe.
For any parsed store, updating `POD_MANAGER_URL` with `http://⟨addr⟩:8000` and
rewriting the file parses back to exactly the updated store: the endpoint key reads
back as exactly the value written, and every other key keeps its previous binding;
moreover `configure_pod_manager_url` persists precisely that rewritten file. -/
theorem C4_persist_merge (lines : List Str) (m : List (Str × Str)) (addr : Str)
    (h : readEnvLines lines = some m) :
    readEnvLines (writeEnvLines (dictInsert m podManagerUrlKey (managerUrlValue addr)))
        = some (dictInsert m podManagerUrlKey (managerUrlValue addr))
    ∧ lookupStr (dictInsert m podManagerUrlKey (managerUrlValue addr)) podManagerUrlKey
        = some (managerUrlValue addr)
    ∧ (∀ k2, k2 ≠ podManagerUrlKey →
        lookupStr (dictInsert m podManagerUrlKey (managerUrlValue addr)) k2 = lookupStr m k2)
    ∧ (∀ svc, get_loadbalancer_url svc = some addr →
        configure_pod_manager_url svc (some lines)
          = some (some (writeEnvLines (dictInsert m podManagerUrlKey (managerUrlValue addr))))) := by
  have hminv := readEnvAux_inv lines [] m h (by simp) (by simp)
  have hkey1 : ( '=') ∉ podManagerUrlKey := by decide
  have hkey2 : headNotSpace podManagerUrlKey = true := by decide
  have hnorm : ∀ p ∈ dictInsert m podManagerUrlKey (managerUrlValue addr), EnvNormal p :=
    dictInsert_normal m podManagerUrlKey (managerUrlValue addr) hminv.1
      ⟨hkey1, hkey2, managerUrlValue_stripped addr⟩
  have hnodup := dictInsert_nodup m podManagerUrlKey (managerUrlValue addr) hminv.2
  refine ⟨?_, lookupStr_dictInsert_self m _ _,
    fun k2 hk2 => lookupStr_dictInsert_ne m _ _ k2 hk2, ?_⟩
  · show readEnvAux [] (writeEnvLines (dictInsert m podManagerUrlKey (managerUrlValue addr)))
        = some (dictInsert m podManagerUrlKey (managerUrlValue addr))
    have hrt := readEnvAux_write (dictInsert m podManagerUrlKey (managerUrlValue addr)) []
      hnorm hnodup (by simp)
    simpa using hrt
  · intro svc hsvc
    unfold configure_pod_manager_url
    rw [hsvc]
    show (match readEnvLines lines with
      | none => none
      | some m2 => some (some (writeEnvLines (dictInsert m2 podManagerUrlKey (managerUrlValue addr)))))
        = some (some (writeEnvLines (dictInsert m podManagerUrlKey (managerUrlValue addr))))
    rw [h]

/-- Witness for C4 at a one-line store: the unrelated key `OTHER_KEY` keeps its
value after the endpoint for address `1.2.3.4` is merged in. -/
theorem C4_witness :
    readEnvLines [( "OTHER_KEY=\"keepme\"").toList]
      = some [(( "OTHER_KEY").toList, ( "keepme").toList)]
    ∧ lookupStr (dictInsert [(( "OTHER_KEY").toList, ( "keepme").toList)]
        podManagerUrlKey (managerUrlValue (( "1.2.3.4").toList))) (( "OTHER_KEY").toList)
      = some (( "keepme").toList) := by
  constructor
  · decide
  · have hc4 := (C4_persist_merge [( "OTHER_KEY=\"keepme\"").toList]
      [(( "OTHER_KEY").toList, ( "keepme").toList)] (( "1.2.3.4").toList)
      (by decide)).2.2.1 (( "OTHER_KEY").toList) (by decide)
    rw [hc4]
    decide

end SpliceOrc
